import Mathlib

/-!
Verification of the legacy-to-current migration engine.

The JavaScript sources are shallowly embedded: pure functions become Lean
functions, `async` I/O returns `Except String`, thrown exceptions are
`Except.error` with the thrown message, JS `undefined` is `Option.none`,
JS `null` is an explicit value, and the impure `Date.now()` becomes an
explicit `now : Nat` argument.  JS `Date` string parsing is passed in as a
pure function `jsDate : String → Option String` (returning the ISO string
on success, `none` for an invalid date), since it is deterministic for a
fixed input string.
-/

namespace Orc

/-- JS `a || b` where `a` is a string-or-undefined: the empty string is falsy. -/
def jsOrStr (a b : Option String) : Option String :=
  match a with
  | some v => if v = "" then b else some v
  | none => b

/-- JS `a || b` where `a` is a number-or-undefined: `0` is falsy. -/
def jsOrInt (a b : Option Int) : Option Int :=
  match a with
  | some v => if v = 0 then b else some v
  | none => b

/-- Is `pat` a contiguous substring of the character list? -/
def subOf (pat : List Char) : List Char → Bool
  | [] => pat.isEmpty
  | c :: cs => pat.isPrefixOf (c :: cs) || subOf pat cs

/-- JS `s.includes(pat)`. -/
def containsSub (s pat : String) : Bool :=
  subOf pat.toList s.toList

/-- One pass of JS `name.replace(/\s+/g, '-').toLowerCase()`: the first
character of a whitespace run becomes `-`, the rest of the run is skipped
(the flag records being inside a run), other characters are lowercased. -/
def slugGo : Bool → List Char → List Char
  | _, [] => []
  | inRun, c :: cs =>
    if c.isWhitespace then
      if inRun then slugGo true cs else '-' :: slugGo true cs
    else
      c.toLower :: slugGo false cs

/-- JS `name.replace(/\s+/g, '-').toLowerCase()`, used for mock-room ids. -/
def slug (s : String) : String :=
  String.mk (slugGo false s.toList)

/-! ## Legacy source records (untyped JS objects, embedded with the fields the
transforms read; `none` is an absent/undefined field). -/

structure LegacySubSession where
  ClientSubSessionId : Option String := none
  clientSubSessionId : Option String := none
  SubSessionId : Option String := none
  subSessionId : Option String := none
  id : Option String := none
  subSessionName : Option String := none
  title : Option String := none
  description : Option String := none
  startTime : Option String := none
  endTime : Option String := none
  order : Option Int := none
  subSessionOrder : Option Int := none
  deriving Repr, DecidableEq

structure LegacySession where
  ClientSessionId : Option String := none
  clientSessionId : Option String := none
  SessionId : Option String := none
  sessionId : Option String := none
  id : Option String := none
  SessionName : Option String := none
  sessionName : Option String := none
  title : Option String := none
  Description : Option String := none
  description : Option String := none
  SessionStart : Option String := none
  sessionStart : Option String := none
  startTime : Option String := none
  SessionEnd : Option String := none
  sessionEnd : Option String := none
  endTime : Option String := none
  subSessions : List LegacySubSession := []
  deriving Repr, DecidableEq

structure LegacyRoom where
  RoomName : Option String := none
  name : Option String := none
  roomName : Option String := none
  Name : Option String := none
  DisplayName : Option String := none
  description : Option String := none
  Description : Option String := none
  capacity : Option Int := none
  Capacity : Option Int := none
  maxCapacity : Option Int := none
  MaxCapacity : Option Int := none
  custom1 : Option String := none
  custom2 : Option String := none
  custom3 : Option String := none
  tags : Option String := none
  id : Option String := none
  Id : Option String := none
  RoomId : Option String := none
  EventLocationId : Option Int := none
  deriving Repr, DecidableEq

structure LegacyUser where
  email : String := ""
  firstName : Option String := none
  lastName : Option String := none
  company : Option String := none
  title : Option String := none
  phone : Option String := none
  custom1 : Option String := none
  custom2 : Option String := none
  registrationDate : Option String := none
  id : Option String := none
  isModerator : Bool := false
  role : Option String := none
  deriving Repr, DecidableEq

structure LegacyFile where
  fileName : String := ""
  fileSize : Option Int := none
  fileType : Option String := none
  downloadUrl : String := ""
  deriving Repr, DecidableEq

/-! ## Target payloads (the objects the transforms build). -/

/-- `ValidationService.transformTags` output object, or `none` for JS null. -/
structure RoomTags where
  category : Option String := none
  type : Option String := none
  level : Option String := none
  additional : Option String := none
  deriving Repr, DecidableEq

structure RoomPayload where
  eventLocationId : Int
  name : String
  displayName : String
  description : Option String := none
  capacity : Option Int := none
  tags : Option RoomTags := none
  eventId : Int
  legacyId : Option String := none
  deriving Repr, DecidableEq

structure SessionPayload where
  eventId : Int
  roomId : String
  sourceSystemId : String
  name : String
  description : Option String
  startsAt : Option String
  endsAt : Option String
  deriving Repr, DecidableEq

structure SubSessionPayload where
  sessionId : String
  sourceSystemId : String
  name : String
  description : Option String
  startsAt : Option String
  endsAt : Option String
  order : Int
  deriving Repr, DecidableEq

/-! ## ValidationService -/

/-- `ValidationService.transformDateTime`: falsy input gives JS null (`none`);
otherwise parse via `jsDate`, `none` on an invalid date. -/
def transformDateTime (jsDate : String → Option String) (v : Option String) :
    Option String :=
  match v with
  | none => none
  | some s => if s = "" then none else jsDate s

/-- The session id alias chain `ClientSessionId || clientSessionId ||
SessionId || sessionId || id` (without the `legacy-` fallback). -/
def sessionIdChain (s : LegacySession) : Option String :=
  jsOrStr s.ClientSessionId (jsOrStr s.clientSessionId
    (jsOrStr s.SessionId (jsOrStr s.sessionId (jsOrStr s.id none))))

/-- The sub-session id alias chain `ClientSubSessionId || clientSubSessionId
|| SubSessionId || subSessionId || id` (without the `legacy-` fallback). -/
def subSessionIdChain (s : LegacySubSession) : Option String :=
  jsOrStr s.ClientSubSessionId (jsOrStr s.clientSubSessionId
    (jsOrStr s.SubSessionId (jsOrStr s.subSessionId (jsOrStr s.id none))))

/-- Compiled check that `validateCurrentSystemData('session', 'create', ·)`
performs on the payload, per `buildJoiSchema`/`applyValidationRules` and the
`session.create` entry of `config/dtos/current-dtos.json`.  Every required
field carries a `type` rule, and `applyValidationRules` rebuilds such fields
from `Joi.string()`/`Joi.number()` without re-adding `.required()`, so
required-ness is not enforced; the effective constraints on a payload built
by `transformLegacySession` are: `startsAt`/`endsAt` must be strings (the
keys are always present, so a JS null fails `Joi.string()`), `name` at most
350 characters and `sourceSystemId` at most 100. -/
def validSessionCreate (p : SessionPayload) : Bool :=
  p.startsAt.isSome && p.endsAt.isSome &&
    p.name.length ≤ 350 && p.sourceSystemId.length ≤ 100

/-- Compiled check for `validateCurrentSystemData('subSession', 'create', ·)`
(see `validSessionCreate`): with the `subSession.create` DTO rules the only
constraints a `transformLegacySubSession` payload can violate are string-ness
of the always-present `startsAt`/`endsAt` keys. -/
def validSubSessionCreate (p : SubSessionPayload) : Bool :=
  p.startsAt.isSome && p.endsAt.isSome

/-- `ValidationService.transformLegacySession`.  `now` is `Date.now()`. -/
def transformLegacySession (jsDate : String → Option String) (now : Nat)
    (legacySession : LegacySession) (roomId : String) (targetEventId : Int) :
    Except String SessionPayload :=
  let transformedSession : SessionPayload :=
    { eventId := targetEventId
      roomId := roomId
      sourceSystemId :=
        (sessionIdChain legacySession).getD ("legacy-" ++ toString now)
      name := (jsOrStr legacySession.SessionName
        (jsOrStr legacySession.sessionName
          (jsOrStr legacySession.title none))).getD "Untitled Session"
      description := jsOrStr legacySession.Description
        (jsOrStr legacySession.description none)
      startsAt := transformDateTime jsDate (jsOrStr legacySession.SessionStart
        (jsOrStr legacySession.sessionStart
          (jsOrStr legacySession.startTime none)))
      endsAt := transformDateTime jsDate (jsOrStr legacySession.SessionEnd
        (jsOrStr legacySession.sessionEnd
          (jsOrStr legacySession.endTime none))) }
  if validSessionCreate transformedSession then
    .ok transformedSession
  else
    .error "Session transformation failed: Validation failed for session"

/-- `ValidationService.transformLegacySubSession`.  Note the `order` field:
`legacySubSession.order || legacySubSession.subSessionOrder || 1`, taken from
the source record, not from the record's position in any list.  The
`targetEventId` parameter is accepted but, as in the source, not placed in
the payload. -/
def transformLegacySubSession (jsDate : String → Option String) (now : Nat)
    (legacySubSession : LegacySubSession) (sessionId : String)
    (_targetEventId : Int) : Except String SubSessionPayload :=
  let transformedSubSession : SubSessionPayload :=
    { sessionId := sessionId
      sourceSystemId :=
        (subSessionIdChain legacySubSession).getD ("legacy-" ++ toString now)
      name := (jsOrStr legacySubSession.subSessionName
        (jsOrStr legacySubSession.title none)).getD "Untitled SubSession"
      description := jsOrStr legacySubSession.description none
      startsAt := transformDateTime jsDate
        (jsOrStr legacySubSession.startTime none)
      endsAt := transformDateTime jsDate
        (jsOrStr legacySubSession.endTime none)
      order := (jsOrInt legacySubSession.order
        (jsOrInt legacySubSession.subSessionOrder (some 1))).getD 1 }
  if validSubSessionCreate transformedSubSession then
    .ok transformedSubSession
  else
    .error "SubSession transformation failed: Validation failed for subSession"

/-- The room name alias chain `RoomName || name || roomName || Name ||
DisplayName`. -/
def roomNameChain (r : LegacyRoom) : Option String :=
  jsOrStr r.RoomName (jsOrStr r.name
    (jsOrStr r.roomName (jsOrStr r.Name (jsOrStr r.DisplayName none))))

/-- `ValidationService.transformTags`: an object built from `custom1..3` and
`tags`, or JS null when no key was added. -/
def transformTags (legacyData : LegacyRoom) : Option RoomTags :=
  let t : RoomTags :=
    { category := jsOrStr legacyData.custom1 none
      type := jsOrStr legacyData.custom2 none
      level := jsOrStr legacyData.custom3 none
      additional := jsOrStr legacyData.tags none }
  if t.category = none ∧ t.type = none ∧ t.level = none ∧ t.additional = none
  then none else some t

/-- Compiled check for `validateCurrentSystemData('room', 'create', ·)` with
the `room.create` entry of `config/dtos/current-dtos.json`.  That schema has
exactly the keys `name`, `displayName`, `eventLocationId` and an empty
optional list, and `Joi.object` rejects unknown keys, so a payload carrying
any of the conditionally-added `description`/`capacity`/`tags` keys fails
validation; `name` is capped at 100 characters and `displayName` at 250.
(`eventId` and `legacyId` are added to the object only after validation and
are therefore not checked.) -/
def validRoomCreate (p : RoomPayload) : Bool :=
  p.description = none && p.capacity = none && p.tags = none &&
    p.name.length ≤ 100 && p.displayName.length ≤ 250

/-- `ValidationService.transformLegacyRoom`.  `eventLocationId` is the
optional third JS parameter (callers in `MigrationService` omit it). -/
def transformLegacyRoom (legacyRoom : LegacyRoom) (targetEventId : Int)
    (eventLocationId : Option Int := none) : Except String RoomPayload :=
  match roomNameChain legacyRoom with
  | none =>
    .error "Room transformation failed: Room name is required but not found in legacy data"
  | some roomName =>
    let transformedRoom : RoomPayload :=
      { eventLocationId := (jsOrInt eventLocationId
          (jsOrInt legacyRoom.EventLocationId (some targetEventId))).getD
            targetEventId
        name := roomName
        displayName := roomName
        description := jsOrStr legacyRoom.description
          (jsOrStr legacyRoom.Description none)
        capacity := jsOrInt legacyRoom.capacity (jsOrInt legacyRoom.Capacity
          (jsOrInt legacyRoom.maxCapacity (jsOrInt legacyRoom.MaxCapacity none)))
        tags := transformTags legacyRoom
        eventId := targetEventId
        legacyId := jsOrStr legacyRoom.id
          (jsOrStr legacyRoom.Id (jsOrStr legacyRoom.RoomId none)) }
    if validRoomCreate transformedRoom then
      .ok transformedRoom
    else
      .error "Room transformation failed: Validation failed for room"

/-! ### User, moderator and file transforms

`transformLegacyUser` builds an object with the keys `eventId`, `email`,
`firstName`, `lastName`, `company`, `jobTitle`, `phoneNumber`, `tags`,
`metadata`, `legacyId`; the `user.create` schema of
`config/dtos/current-dtos.json` knows only `email`, `userName`, `firstName`,
`lastName`, `eventId` plus its optional list, and `Joi.object` rejects
unknown keys, so validation of the transformed user always fails (e.g. on
`company`).  `transformLegacyModerator` and `transformLegacyFile` call
`validateCurrentSystemData` with entity types `moderator` and `sessionFile`,
which are not keys of `current-dtos.json` at all, so they throw the missing
DTO configuration error. -/

def userPayloadKeys : List String :=
  ["eventId", "email", "firstName", "lastName", "company", "jobTitle",
   "phoneNumber", "tags", "metadata", "legacyId"]

/-- Keys of the `user.create` schema from `config/dtos/current-dtos.json`
(required ++ optional). -/
def userCreateSchemaKeys : List String :=
  ["email", "userName", "firstName", "lastName", "eventId",
   "middleName", "preferredName", "prefix", "suffix", "credentials", "title",
   "organization", "phoneNumber", "website", "hasCheckedInSrr", "isVip",
   "hasLoggedIn", "disableDisclosureDisplay", "city", "state", "country",
   "isSystemUser", "userTags", "createUserSocialTagDto"]

structure UserMetadata where
  department : Option String := none
  role : Option String := none
  registrationDate : Option String := none
  deriving Repr, DecidableEq

structure UserPayload where
  eventId : Int
  email : String
  firstName : Option String := none
  lastName : Option String := none
  company : Option String := none
  jobTitle : Option String := none
  phoneNumber : Option String := none
  tags : Option (List String) := none
  metadata : Option UserMetadata := none
  legacyId : Option String := none
  deriving Repr, DecidableEq

/-- `ValidationService.transformLegacyUser`. -/
def transformLegacyUser (legacyUser : LegacyUser) (targetEventId : Int) :
    Except String UserPayload :=
  let transformedUser : UserPayload :=
    { eventId := targetEventId
      email := legacyUser.email
      firstName := legacyUser.firstName
      lastName := legacyUser.lastName
      company := jsOrStr legacyUser.company none
      jobTitle := jsOrStr legacyUser.title none
      phoneNumber := jsOrStr legacyUser.phone none
      tags :=
        let tags := ([] : List String) ++
          (legacyUser.custom1.elim [] ([·])) ++ (legacyUser.custom2.elim [] ([·]))
        if tags.isEmpty then none else some tags
      metadata :=
        let m : UserMetadata :=
          { department := legacyUser.custom1, role := legacyUser.custom2,
            registrationDate := legacyUser.registrationDate }
        if m.department = none ∧ m.role = none ∧ m.registrationDate = none
        then none else some m
      legacyId := legacyUser.id }
  if userPayloadKeys.all (fun k => userCreateSchemaKeys.contains k) then
    .ok transformedUser
  else
    .error "User transformation failed: Validation failed for user"

/-- Keys of `config/dtos/current-dtos.json`. -/
def currentDtoEntityKeys : List String :=
  ["event", "room", "session", "subSession", "user", "file"]

/-- `ValidationService.transformLegacyModerator` (payload elided: the call to
`validateCurrentSystemData('moderator', 'create', ·)` throws first, because
`moderator` is not a key of `current-dtos.json`). -/
def transformLegacyModerator (_legacyUser : LegacyUser) (_userId _roomId : String)
    (_targetEventId : Int) : Except String Unit :=
  if currentDtoEntityKeys.contains "moderator" then .ok () else
    .error "Moderator transformation failed: No DTO configuration found for moderator.create"

/-- `ValidationService.transformLegacyFile` with the default
`fileType = 'session'` (payload elided: the call to
`validateCurrentSystemData('sessionFile', 'create', ·)` throws first, because
`sessionFile` is not a key of `current-dtos.json`). -/
def transformLegacyFile (_legacyFile : LegacyFile) (_associatedId : String)
    (_targetEventId : Int) : Except String Unit :=
  if currentDtoEntityKeys.contains "sessionFile" then .ok () else
    .error "File transformation failed: No DTO configuration found for sessionFile.create"

/-! ## Target system entities and state

Modelled from the spec: the target system is an external collaborator.  Its
observable contract used by the client code is: a POST creates the entity and
returns it with a fresh identifier, or rejects a duplicate (same room name,
resp. same `sourceSystemId` for sessions/sub-sessions) with an HTTP 409 whose
message the axios interceptor renders as
`Current event API Error (409): ...`; a PUT updates the addressed entity in
place.  `isExisting` embeds the `_isExisting` marker the client puts on its
mock fallback objects (a real server entity never carries it). -/

structure TRoom where
  id : String
  name : String
  displayName : String := ""
  eventLocationId : Int := 0
  isExisting : Bool := false
  deriving Repr, DecidableEq

structure TSession where
  id : String
  sourceSystemId : String
  name : String := ""
  eventId : Int := 0
  roomId : String := ""
  description : Option String := none
  startsAt : Option String := none
  endsAt : Option String := none
  isExisting : Bool := false
  deriving Repr, DecidableEq

structure TSubSession where
  id : String
  sourceSystemId : String
  name : String := ""
  sessionId : String := ""
  description : Option String := none
  startsAt : Option String := none
  endsAt : Option String := none
  order : Int := 0
  isExisting : Bool := false
  deriving Repr, DecidableEq

structure TUser where
  id : String
  email : String
  deriving Repr, DecidableEq

structure EventState where
  rooms : List TRoom := []
  sessions : List TSession := []
  subSessions : List TSubSession := []
  users : List TUser := []
  moderators : List (String × String) := []
  files : Nat := 0
  nextId : Nat := 1
  deriving Repr, DecidableEq

/-- Modelled from the spec: `POST Events/{eventId}/Rooms`.  Conflict signal
when a room with the same name already exists. -/
def postRoom (st : EventState) (p : RoomPayload) :
    EventState × Except String TRoom :=
  if st.rooms.any (fun r => r.name = p.name) then
    (st, .error "Current event API Error (409): Room already exists")
  else
    let r : TRoom := { id := toString st.nextId
                       name := p.name
                       displayName := p.displayName
                       eventLocationId := p.eventLocationId }
    ({ st with rooms := st.rooms ++ [r], nextId := st.nextId + 1 }, .ok r)

/-- Modelled from the spec: `POST Events/{eventId}/Sessions`.  Conflict
signal when a session with the same `sourceSystemId` already exists. -/
def postSession (st : EventState) (q : SessionPayload) :
    EventState × Except String TSession :=
  if st.sessions.any (fun s => s.sourceSystemId = q.sourceSystemId) then
    (st, .error "Current event API Error (409): The SourceSystemId is already in use")
  else
    let s : TSession := { id := toString st.nextId
                          sourceSystemId := q.sourceSystemId
                          name := q.name
                          eventId := q.eventId
                          roomId := q.roomId
                          description := q.description
                          startsAt := q.startsAt
                          endsAt := q.endsAt }
    ({ st with sessions := st.sessions ++ [s], nextId := st.nextId + 1 }, .ok s)

/-- Modelled from the spec: `PUT Events/{eventId}/Sessions/{sessionId}`
replaces the addressed session's fields with the (unfiltered) payload. -/
def putSession (st : EventState) (sessionId : String) (q : SessionPayload) :
    EventState × Except String TSession :=
  match st.sessions.find? (fun s => s.id = sessionId) with
  | none => (st, .error "Current event API Error (404): Session not found")
  | some s =>
    let s' : TSession := { s with
                           sourceSystemId := q.sourceSystemId
                           name := q.name
                           eventId := q.eventId
                           roomId := q.roomId
                           description := q.description
                           startsAt := q.startsAt
                           endsAt := q.endsAt }
    ({ st with sessions :=
        st.sessions.map (fun t => if t.id = sessionId then s' else t) }, .ok s')

/-! ## CurrentSystemApiClient

Each `async` client method is embedded as a pure function; the result of an
awaited inner HTTP call is either computed against `EventState` (`...St`
variants) or passed in explicitly where a claim concerns responses the state
model cannot produce. -/

/-- The mock object of `createRoom`'s unresolved-conflict fallback:
`{ id: existing-<name slugged>, name, displayName, eventLocationId,
_isExisting: true }`. -/
def mockRoom (roomData : RoomPayload) : TRoom :=
  { id := "existing-" ++ slug roomData.name
    name := roomData.name
    displayName := roomData.displayName
    eventLocationId := roomData.eventLocationId
    isExisting := true }

/-- `CurrentSystemApiClient.createRoom`, with the two awaited calls passed in:
`post` is the `POST rooms` outcome and `lookup` the `getRooms` outcome used
by the conflict branch. -/
def createRoom (post : Except String TRoom)
    (lookup : Except String (List TRoom)) (roomData : RoomPayload) :
    Except String TRoom :=
  match post with
  | .ok response => .ok response
  | .error msg =>
    if containsSub msg "409" && containsSub msg "already exists" then
      match lookup with
      | .ok existingRooms =>
        match existingRooms.find? (fun room => room.name = roomData.name) with
        | some existingRoom => .ok existingRoom
        | none => .ok (mockRoom roomData)
      | .error _ => .ok (mockRoom roomData)
    else
      .error ("Failed to create room \"" ++ roomData.name ++ "\": " ++ msg)

/-- `createRoom` run against the target-state model. -/
def createRoomSt (st : EventState) (roomData : RoomPayload) :
    EventState × Except String TRoom :=
  let (st1, post) := postRoom st roomData
  (st1, createRoom post (.ok st1.rooms) roomData)

/-- The mock object of `createOrUpdateSession`'s conflict fallback. -/
def mockSession (sessionData : SessionPayload) : TSession :=
  { id := "existing-" ++ sessionData.sourceSystemId
    name := sessionData.name
    sourceSystemId := sessionData.sourceSystemId
    eventId := sessionData.eventId
    roomId := sessionData.roomId
    isExisting := true }

/-- `CurrentSystemApiClient.updateSession` against the state model. -/
def updateSession (st : EventState) (sessionId : String)
    (sessionData : SessionPayload) : EventState × Except String TSession :=
  match putSession st sessionId sessionData with
  | (st1, .ok response) => (st1, .ok response)
  | (st1, .error m) =>
    (st1, .error ("Failed to update session \"" ++ sessionId ++ "\": " ++ m))

/-- `CurrentSystemApiClient.getSessionBySourceSystemId` against the state
model (the JS catch branch returning null cannot fire here). -/
def getSessionBySourceSystemId (st : EventState) (sourceSystemId : String) :
    Option TSession :=
  st.sessions.find? (fun session => session.sourceSystemId = sourceSystemId)

/-- `CurrentSystemApiClient.createOrUpdateSession` against the state model:
POST first; on a `409`/`already in use` error, look up by `sourceSystemId`
and update; a found-but-failed update or a missing match falls back to the
mock session object. -/
def createOrUpdateSession (st : EventState) (sessionData : SessionPayload) :
    EventState × Except String TSession :=
  let (st1, post) := postSession st sessionData
  match post with
  | .ok response => (st1, .ok response)
  | .error msg =>
    if containsSub msg "409" && containsSub msg "already in use" then
      match getSessionBySourceSystemId st1 sessionData.sourceSystemId with
      | some existingSession =>
        match updateSession st1 existingSession.id sessionData with
        | (st2, .ok updatedSession) => (st2, .ok updatedSession)
        | (st2, .error _) => (st2, .ok (mockSession sessionData))
      | none => (st1, .ok (mockSession sessionData))
    else
      (st1, .error ("Failed to create session \"" ++ sessionData.name ++
        "\": " ++ msg))

/-- `CurrentSystemApiClient.createSession` (alias for the upsert). -/
def createSession (st : EventState) (sessionData : SessionPayload) :
    EventState × Except String TSession :=
  createOrUpdateSession st sessionData

/-! ### Sub-session upsert and update -/

/-- A JS value as it appears in a request payload field. -/
inductive JsVal where
  | str : String → JsVal
  | num : Int → JsVal
  | jnull : JsVal
  deriving Repr, DecidableEq

/-- The untyped `subSessionData` object the sub-session client methods
receive.  `none` is an absent/undefined field; `some JsVal.jnull` is a
present JS null. -/
structure SubSessionData where
  name : Option String := none
  description : Option JsVal := none
  startsAt : Option JsVal := none
  endsAt : Option JsVal := none
  order : Option Int := none
  eventId : Option Int := none
  sessionId : Option String := none
  sourceSystemId : Option String := none
  deriving Repr, DecidableEq

/-- JS string-or-null into a payload value. -/
def optJs : Option String → JsVal
  | some s => .str s
  | none => .jnull

/-- How `MigrationService` passes a transformed sub-session payload to the
client: every one of the update-relevant keys is present (`description`,
`startsAt`, `endsAt` may be JS null but never undefined), and no `eventId`
key exists on the object. -/
def payloadToData (p : SubSessionPayload) : SubSessionData :=
  { name := some p.name
    description := some (optJs p.description)
    startsAt := some (optJs p.startsAt)
    endsAt := some (optJs p.endsAt)
    order := some p.order
    eventId := none
    sessionId := some p.sessionId
    sourceSystemId := some p.sourceSystemId }

/-- Lines 774-787 of the client: the update payload is built with exactly the
keys `name`, `description`, `startsAt`, `endsAt`, `order` and the
`undefined`-valued ones are then deleted. -/
def subSessionUpdatePayload (subSessionData : SubSessionData) :
    List (String × JsVal) :=
  ([("name", subSessionData.name.map JsVal.str),
    ("description", subSessionData.description),
    ("startsAt", subSessionData.startsAt),
    ("endsAt", subSessionData.endsAt),
    ("order", subSessionData.order.map JsVal.num)] :
      List (String × Option JsVal)).filterMap
    (fun kv => kv.2.map (fun v => (kv.1, v)))

/-- Modelled from the spec: `POST Events/{eventId}/SubSessions`, conflict
on an existing `sourceSystemId`. -/
def postSubSession (st : EventState) (d : SubSessionData) :
    EventState × Except String TSubSession :=
  if st.subSessions.any (fun t => some t.sourceSystemId = d.sourceSystemId) then
    (st, .error "Current event API Error (409): The SourceSystemId is already in use")
  else
    let t : TSubSession := { id := toString st.nextId
                             sourceSystemId := d.sourceSystemId.getD "undefined"
                             name := d.name.getD ""
                             sessionId := d.sessionId.getD ""
                             description := match d.description with
                               | some (.str s) => some s
                               | _ => none
                             startsAt := match d.startsAt with
                               | some (.str s) => some s
                               | _ => none
                             endsAt := match d.endsAt with
                               | some (.str s) => some s
                               | _ => none
                             order := d.order.getD 0 }
    ({ st with subSessions := st.subSessions ++ [t], nextId := st.nextId + 1 },
     .ok t)

/-- Apply one update-payload field to a stored sub-session (spec-modelled
server side of the PUT). -/
def applySubField (t : TSubSession) : String × JsVal → TSubSession
  | ("name", .str s) => { t with name := s }
  | ("description", .str s) => { t with description := some s }
  | ("description", .jnull) => { t with description := none }
  | ("startsAt", .str s) => { t with startsAt := some s }
  | ("startsAt", .jnull) => { t with startsAt := none }
  | ("endsAt", .str s) => { t with endsAt := some s }
  | ("endsAt", .jnull) => { t with endsAt := none }
  | ("order", .num n) => { t with order := n }
  | _ => t

/-- Modelled from the spec: `PUT Events/{eventId}/SubSessions/{id}` applies
the present payload fields to the addressed sub-session. -/
def putSubSession (st : EventState) (subSessionId : String)
    (payload : List (String × JsVal)) : EventState × Except String TSubSession :=
  match st.subSessions.find? (fun t => t.id = subSessionId) with
  | none => (st, .error "Current event API Error (404): SubSession not found")
  | some t =>
    let t' := payload.foldl applySubField t
    ({ st with subSessions :=
        st.subSessions.map (fun u => if u.id = subSessionId then t' else u) },
     .ok t')

/-- `CurrentSystemApiClient.updateSubSession`: guard on a resolvable eventId,
filter the payload to the update-allowed fields, PUT. -/
def updateSubSession (st : EventState) (subSessionId : String)
    (subSessionData : SubSessionData) (eventId : Option Int := none) :
    EventState × Except String TSubSession :=
  match jsOrInt eventId subSessionData.eventId with
  | none =>
    (st, .error ("Failed to update subsession \"" ++ subSessionId ++
      "\": EventId is required for subsession update"))
  | some _ =>
    let updatePayload := subSessionUpdatePayload subSessionData
    match putSubSession st subSessionId updatePayload with
    | (st1, .ok response) => (st1, .ok response)
    | (st1, .error m) =>
      (st1, .error ("Failed to update subsession \"" ++ subSessionId ++
        "\": " ++ m))

/-- `CurrentSystemApiClient.getSubSessionBySourceSystemId` against the state
model. -/
def getSubSessionBySourceSystemId (st : EventState)
    (sourceSystemId : Option String) : Option TSubSession :=
  st.subSessions.find? (fun t => some t.sourceSystemId = sourceSystemId)

/-- The mock object of `createOrUpdateSubSession`'s conflict fallback
(a JS template writes `undefined` for a missing `sourceSystemId`). -/
def mockSubSession (subSessionData : SubSessionData) : TSubSession :=
  { id := "existing-" ++ subSessionData.sourceSystemId.getD "undefined"
    name := subSessionData.name.getD ""
    sourceSystemId := subSessionData.sourceSystemId.getD "undefined"
    sessionId := subSessionData.sessionId.getD ""
    isExisting := true }

/-- The creation half of `createOrUpdateSubSession` (after the pre-check):
POST, and on a `409`/`already in use` failure look up by `sourceSystemId`
and update, falling back to the mock sub-session object. -/
def createSubSessionPath (st : EventState) (subSessionData : SubSessionData)
    (targetEventId : Int) : EventState × Except String TSubSession :=
  let (st1, post) := postSubSession st subSessionData
  match post with
  | .ok response => (st1, .ok response)
  | .error msg =>
    if containsSub msg "409" && containsSub msg "already in use" then
      match getSubSessionBySourceSystemId st1 subSessionData.sourceSystemId with
      | some existingSubSession =>
        match updateSubSession st1 existingSubSession.id subSessionData
            (some targetEventId) with
        | (st2, .ok updatedSubSession) => (st2, .ok updatedSubSession)
        | (st2, .error _) => (st2, .ok (mockSubSession subSessionData))
      | none => (st1, .ok (mockSubSession subSessionData))
    else
      (st1, .error ("Failed to create subsession \"" ++
        (subSessionData.name.getD "undefined") ++ "\": " ++ msg))

/-- `CurrentSystemApiClient.createOrUpdateSubSession`: eventId guard, then a
pre-check for an existing entity with the same `sourceSystemId` (updating it
when found; an update failure is swallowed by the `checkError` catch and
creation proceeds), then the creation path. -/
def createOrUpdateSubSession (st : EventState)
    (subSessionData : SubSessionData) (eventId : Option Int := none) :
    EventState × Except String TSubSession :=
  match jsOrInt eventId subSessionData.eventId with
  | none => (st, .error "EventId is required for subsession creation")
  | some targetEventId =>
    match getSubSessionBySourceSystemId st subSessionData.sourceSystemId with
    | some existingSubSession =>
      match updateSubSession st existingSubSession.id subSessionData
          (some targetEventId) with
      | (st1, .ok updatedSubSession) => (st1, .ok updatedSubSession)
      | (_, .error _) => createSubSessionPath st subSessionData targetEventId
    | none => createSubSessionPath st subSessionData targetEventId

/-- `CurrentSystemApiClient.createSubSession` (alias: delegates to the upsert
with no second argument, so the eventId must come from the payload). -/
def createSubSession (st : EventState) (subSessionData : SubSessionData) :
    EventState × Except String TSubSession :=
  createOrUpdateSubSession st subSessionData none

/-- `CurrentSystemApiClient.createUser` against the state model (modelled
from the spec: user creation has no conflict handling in the client). -/
def createUser (st : EventState) (userData : UserPayload) :
    EventState × Except String TUser :=
  let u : TUser := { id := toString st.nextId, email := userData.email }
  ({ st with users := st.users ++ [u], nextId := st.nextId + 1 }, .ok u)

/-- `CurrentSystemApiClient.createModerator` against the state model. -/
def createModerator (st : EventState) (userId roomId : String) :
    EventState × Except String Unit :=
  ({ st with moderators := st.moderators ++ [(userId, roomId)] }, .ok ())

/-! ## Error handling and the (absent) retry path

`handleApiError` renders an axios failure into an `Error` message;
`eventApiRequest` makes exactly one attempt: no call site in either API
client wraps a request in `Utils.retry`, and the `maxRetries`/`retryDelay`
configuration values loaded by `ConfigManager.loadEnvironmentVariables` are
read nowhere else in the codebase.  To make the attempt count observable,
the run model receives the sequence of outcomes that successive attempts
would produce and reports how many it consumed. -/

/-- The wrapped-or-direct response body of the current system's APIs. -/
inductive RespData where
  | wrapped : Bool → Option String → String → RespData
  | direct : String → RespData
  deriving Repr, DecidableEq

/-- Outcome of a single HTTP attempt. -/
inductive HttpOutcome where
  | ok : RespData → HttpOutcome
  | httpErr : Nat → Option String → HttpOutcome
  | netErr : String → HttpOutcome
  deriving Repr, DecidableEq

/-- `CurrentSystemApiClient.handleApiError`. -/
def handleApiError (apiType : String) : HttpOutcome → String
  | .ok _ => ""
  | .httpErr status msg =>
    "Current " ++ apiType ++ " API Error (" ++ toString status ++ "): " ++
      msg.getD ("HTTP " ++ toString status ++ " error")
  | .netErr msg => "Current " ++ apiType ++ " API Network Error: " ++ msg

/-- Transient-failure classification as the spec defines it (network error,
5xx, rate-limit signal); used only to state the retry claim — the client
code contains no such classification. -/
def isTransient : HttpOutcome → Bool
  | .ok _ => false
  | .httpErr status _ => 500 ≤ status || status = 429
  | .netErr _ => true

/-- The body handling of `CurrentSystemApiClient.eventApiRequest` for one
attempt's outcome. -/
def eventApiRequest (resp : HttpOutcome) : Except String String :=
  match resp with
  | .ok (.wrapped isSuccess msg payload) =>
    if isSuccess then .ok payload
    else .error ("API Error: " ++ msg.getD "Unknown error")
  | .ok (.direct payload) => .ok payload
  | .httpErr s m => .error (handleApiError "event" (.httpErr s m))
  | .netErr m => .error (handleApiError "event" (.netErr m))

/-- `eventApiRequest` run against the sequence of outcomes successive
attempts would produce: the method issues exactly one axios request, so it
consumes one outcome and returns; there is no retry loop. -/
def eventApiRequestRun (responses : List HttpOutcome) :
    Nat × Except String String :=
  (1, eventApiRequest (responses.headD (.netErr "socket hang up")))

/-- `Utils.retry` from `src/utils/constants.js` (the repository's
exponential-backoff helper; it has no callers), run against the same kind of
outcome sequence; sleeping does not affect the result, so delays and jitter
are not modelled.  Returns the number of attempts consumed and the final
outcome. -/
def utilsRetry (maxRetries : Nat) (responses : List HttpOutcome) :
    Nat × Except String String :=
  go (maxRetries + 1) responses 0 "socket hang up"
where
  go : Nat → List HttpOutcome → Nat → String → Nat × Except String String
  | 0, _, used, lastError => (used, .error lastError)
  | Nat.succ fuel, responses, used, lastError =>
    match responses with
    | [] => (used, .error lastError)
    | r :: rest =>
      match eventApiRequest r with
      | .ok v => (used + 1, .ok v)
      | .error e =>
        match fuel with
        | 0 => (used + 1, .error e)
        | Nat.succ _ => go fuel rest (used + 1) e

/-! ## MigrationResult -/

/-- A JS number that may have been poisoned to NaN by adding `undefined`. -/
inductive JsNum where
  | nat : Nat → JsNum
  | nan : JsNum
  deriving Repr, DecidableEq

/-- JS `counter += n` for a defined number `n`. -/
def JsNum.addNat : JsNum → Nat → JsNum
  | .nat m, n => .nat (m + n)
  | .nan, _ => .nan

/-- The `MigrationResult.statistics` counters the orchestration touches
(`totalFileSizeBytes` and the api/timing counters are never written by
`MigrationService` and are omitted). -/
structure Stats where
  roomsProcessed : Nat := 0
  sessionsCreated : JsNum := .nat 0
  subSessionsCreated : Nat := 0
  usersProcessed : JsNum := .nat 0
  moderatorsCreated : Nat := 0
  filesUploaded : JsNum := .nat 0
  deriving Repr, DecidableEq

/-- An entry of `result.errors` (`{ context, message }`; timestamps and
stack traces are not modelled). -/
structure ErrEntry where
  context : String
  message : String
  deriving Repr, DecidableEq

/-- The observable part of a `MigrationResult`. -/
structure MigResult where
  statistics : Stats := {}
  errors : List ErrEntry := []
  dryRun : Bool := false
  success : Bool := false
  deriving Repr, DecidableEq

/-- `MigrationResult.addError`. -/
def addError (r : MigResult) (context message : String) : MigResult :=
  { r with errors := r.errors ++ [{ context := context, message := message }]
           success := false }

/-! ## MigrationService -/

/-- Invocation counters for the effectful calls a run makes: `transformCalls`
counts `ValidationService.transformLegacy*` invocations, `mutatingCalls`
counts invocations of the client's create/update/upload entry points (each of
which issues at least one mutating HTTP request unless it fails its own
precondition first). -/
structure Trace where
  transformCalls : Nat := 0
  mutatingCalls : Nat := 0
  deriving Repr, DecidableEq

def Trace.add (a b : Trace) : Trace :=
  { transformCalls := a.transformCalls + b.transformCalls
    mutatingCalls := a.mutatingCalls + b.mutatingCalls }

/-- The per-room data `MigrationService` obtains from `LegacyApiClient`
(each fetch is awaited and may throw). -/
structure RoomBundle where
  room : LegacyRoom := {}
  sessions : Except String (List LegacySession) := .ok []
  users : Except String (List LegacyUser) := .ok []
  files : Except String (List LegacyFile) := .ok []
  downloads : LegacyFile → Except String Unit := fun _ => .ok ()

/-- The `roomResult` object built by `MigrationService.processRoom`. -/
structure RoomLocalResult where
  success : Bool := true
  errors : List ErrEntry := []
  sessionsCreated : Nat := 0
  filesUploaded : Nat := 0
  usersProcessed : Nat := 0
  deriving Repr, DecidableEq

/-- One iteration of the `MigrationService.processSubSessions` loop: the
sub-session is transformed and handed to `createSubSession`; a failure of
either step is caught and only logged. -/
def processSubSessionsStep (jsDate : String → Option String) (now : Nat)
    (sessionId : String) (targetEventId : Int) (acc : EventState × Trace)
    (subSession : LegacySubSession) : EventState × Trace :=
  let (st, tr) := acc
  match transformLegacySubSession jsDate now subSession sessionId
      targetEventId with
  | .ok transformedSubSession =>
    let (st', _) := createSubSession st (payloadToData transformedSubSession)
    (st', { transformCalls := tr.transformCalls + 1
            mutatingCalls := tr.mutatingCalls + 1 })
  | .error _ =>
    (st, { tr with transformCalls := tr.transformCalls + 1 })

/-- `MigrationService.processSubSessions`: the loop over the source list; the
function returns nothing, so no error entry is produced for any
sub-session. -/
def processSubSessions (jsDate : String → Option String) (now : Nat)
    (st : EventState) (subSessions : List LegacySubSession)
    (sessionId : String) (targetEventId : Int) : EventState × Trace :=
  subSessions.foldl (processSubSessionsStep jsDate now sessionId targetEventId)
    (st, {})

/-- What `${session.title}` renders in context strings. -/
def sessionTitle (s : LegacySession) : String :=
  s.title.getD "undefined"

/-- The accumulator of `MigrationService.processSessions`. -/
structure SessResult where
  created : Nat := 0
  errors : List ErrEntry := []
  deriving Repr, DecidableEq

/-- One iteration of the `MigrationService.processSessions` loop: the
session is transformed and upserted, a failure is recorded as a
`Session processing: <title>` entry and the loop continues (sibling
isolation); `created` is incremented for every successful upsert, whether the
target entity was created or conflict-updated; sub-sessions are then
processed without contributing anything to `errors`. -/
def processSessionsStep (jsDate : String → Option String) (now : Nat)
    (roomId : String) (targetEventId : Int)
    (acc : EventState × Trace × SessResult) (session : LegacySession) :
    EventState × Trace × SessResult :=
  let (st, tr, res) := acc
  match transformLegacySession jsDate now session roomId targetEventId with
  | .error e =>
    (st, { tr with transformCalls := tr.transformCalls + 1 },
     { res with errors := res.errors ++
        [{ context := "Session processing: " ++ sessionTitle session
           message := e }] })
  | .ok transformedSession =>
    let tr := { transformCalls := tr.transformCalls + 1
                mutatingCalls := tr.mutatingCalls + 1 }
    match createSession st transformedSession with
    | (st1, .error e) =>
      (st1, tr,
       { res with errors := res.errors ++
          [{ context := "Session processing: " ++ sessionTitle session
             message := e }] })
    | (st1, .ok createdSession) =>
      let res := { res with created := res.created + 1 }
      if session.subSessions.isEmpty then
        (st1, tr, res)
      else
        let (st2, trSub) := processSubSessions jsDate now st1
          session.subSessions createdSession.id targetEventId
        (st2, tr.add trSub, res)

/-- `MigrationService.processSessions`: the sessions are processed strictly
sequentially in source order. -/
def processSessions (jsDate : String → Option String) (now : Nat)
    (st : EventState) (sessions : List LegacySession) (roomId : String)
    (targetEventId : Int) : EventState × Trace × SessResult :=
  sessions.foldl (processSessionsStep jsDate now roomId targetEventId)
    (st, {}, {})

/-- The accumulator of `MigrationService.processUsers`. -/
structure UserResult where
  processed : Nat := 0
  errors : List ErrEntry := []
  deriving Repr, DecidableEq

/-- `MigrationService.processUsers`: transform, create, count, and for a
moderator also transform-and-create the moderator link; any failure becomes a
`User processing: <email>` entry and the loop continues. -/
def processUsers (st : EventState) (users : List LegacyUser)
    (roomId : String) (targetEventId : Int) : EventState × Trace × UserResult :=
  users.foldl
    (fun (acc : EventState × Trace × UserResult) user =>
      let (st, tr, res) := acc
      match transformLegacyUser user targetEventId with
      | .error e =>
        (st, { tr with transformCalls := tr.transformCalls + 1 },
         { res with errors := res.errors ++
            [{ context := "User processing: " ++ user.email, message := e }] })
      | .ok transformedUser =>
        let tr := { transformCalls := tr.transformCalls + 1
                    mutatingCalls := tr.mutatingCalls + 1 }
        match createUser st transformedUser with
        | (st1, .error e) =>
          (st1, tr,
           { res with errors := res.errors ++
              [{ context := "User processing: " ++ user.email, message := e }] })
        | (st1, .ok createdUser) =>
          let res := { res with processed := res.processed + 1 }
          if user.isModerator then
            match transformLegacyModerator user createdUser.id roomId
                targetEventId with
            | .error e =>
              (st1, { tr with transformCalls := tr.transformCalls + 1 },
               { res with errors := res.errors ++
                  [{ context := "User processing: " ++ user.email
                     message := e }] })
            | .ok _ =>
              let (st2, _) := createModerator st1 createdUser.id roomId
              (st2, { transformCalls := tr.transformCalls + 1
                      mutatingCalls := tr.mutatingCalls + 1 }, res)
          else
            (st1, tr, res))
    (st, {}, {})

/-- The accumulator of `MigrationService.processFiles`. -/
structure FileResult where
  uploaded : Nat := 0
  errors : List ErrEntry := []
  deriving Repr, DecidableEq

/-- `MigrationService.processFiles`: download, transform, upload; any failure
becomes a `File processing: <fileName>` entry and the loop continues. -/
def processFiles (st : EventState)
    (download : LegacyFile → Except String Unit) (files : List LegacyFile)
    (roomId : String) (targetEventId : Int) : EventState × Trace × FileResult :=
  files.foldl
    (fun (acc : EventState × Trace × FileResult) file =>
      let (st, tr, res) := acc
      match download file with
      | .error e =>
        (st, tr,
         { res with errors := res.errors ++
            [{ context := "File processing: " ++ file.fileName
               message := e }] })
      | .ok _ =>
        match transformLegacyFile file roomId targetEventId with
        | .error e =>
          (st, { tr with transformCalls := tr.transformCalls + 1 },
           { res with errors := res.errors ++
              [{ context := "File processing: " ++ file.fileName
                 message := e }] })
        | .ok _ =>
          ({ st with files := st.files + 1 },
           { transformCalls := tr.transformCalls + 1
             mutatingCalls := tr.mutatingCalls + 1 },
           { res with uploaded := res.uploaded + 1 }))
    (st, {}, {})

/-- What `${room.name}` renders in the room context string. -/
def roomTitle (r : LegacyRoom) : String :=
  r.name.getD "undefined"

/-- `MigrationService.processRoom`: transform and create the room, then
sessions, users and (unless skipped) files, all inside one try/catch; a
throw from the room transform/create or from a legacy fetch marks the room
failed with a single `Room processing: <name>` entry appended to whatever
per-entity errors were already collected. -/
def processRoom (jsDate : String → Option String) (now : Nat)
    (st : EventState) (bundle : RoomBundle) (targetEventId : Int)
    (skipFiles : Bool) : EventState × Trace × RoomLocalResult :=
  let roomCtx := "Room processing: " ++ roomTitle bundle.room
  match transformLegacyRoom bundle.room targetEventId with
  | .error e =>
    (st, { transformCalls := 1 },
     { success := false, errors := [{ context := roomCtx, message := e }] })
  | .ok transformedRoom =>
    let tr0 : Trace := { transformCalls := 1, mutatingCalls := 1 }
    match createRoomSt st transformedRoom with
    | (st1, .error e) =>
      (st1, tr0,
       { success := false, errors := [{ context := roomCtx, message := e }] })
    | (st1, .ok createdRoom) =>
      match bundle.sessions with
      | .error e =>
        (st1, tr0,
         { success := false, errors := [{ context := roomCtx, message := e }] })
      | .ok sessions =>
        let (st2, tr2, sres) :=
          if sessions.isEmpty then (st1, ({} : Trace), ({} : SessResult))
          else processSessions jsDate now st1 sessions createdRoom.id
            targetEventId
        match bundle.users with
        | .error e =>
          (st2, tr0.add tr2,
           { success := false
             errors := sres.errors ++ [{ context := roomCtx, message := e }]
             sessionsCreated := sres.created })
        | .ok users =>
          let (st3, tr3, ures) :=
            if users.isEmpty then (st2, ({} : Trace), ({} : UserResult))
            else processUsers st2 users createdRoom.id targetEventId
          if skipFiles then
            (st3, (tr0.add tr2).add tr3,
             { success := true
               errors := sres.errors ++ ures.errors
               sessionsCreated := sres.created
               usersProcessed := ures.processed })
          else
            match bundle.files with
            | .error e =>
              (st3, (tr0.add tr2).add tr3,
               { success := false
                 errors := sres.errors ++ ures.errors ++
                   [{ context := roomCtx, message := e }]
                 sessionsCreated := sres.created
                 usersProcessed := ures.processed })
            | .ok files =>
              let (st4, tr4, fres) :=
                if files.isEmpty then (st3, ({} : Trace), ({} : FileResult))
                else processFiles st3 bundle.downloads files createdRoom.id
                  targetEventId
              (st4, ((tr0.add tr2).add tr3).add tr4,
               { success := true
                 errors := sres.errors ++ ures.errors ++ fres.errors
                 sessionsCreated := sres.created
                 usersProcessed := ures.processed
                 filesUploaded := fres.uploaded })

/-! ## ParallelProcessor -/

/-- The wrapper object a `ParallelProcessor.processRooms` task resolves to
(durations are not modelled). -/
structure TaskOutcome (α ε β : Type) where
  success : Bool
  room : α
  result : Option β := none
  error : Option ε := none
  index : Nat := 0
  deriving Repr, DecidableEq

/-- `ParallelProcessor.processRooms`: each room's task runs the processing
function inside its own try/catch and resolves to a success or failure
wrapper value; `Promise.allSettled` then collects every task, fulfilled in
input order (no task rejects, since each catches internally).  A thrown
processing function is an `Except.error`; the embedding returns the settled
wrapper list. -/
def processRooms {α ε β : Type} (rooms : List α)
    (processingFunction : α → Except ε β) : List (TaskOutcome α ε β) :=
  rooms.mapIdx fun index room =>
    match processingFunction room with
    | .ok result =>
      { success := true, room := room, result := some result, index := index }
    | .error error =>
      { success := false, room := room, error := some error, index := index }

/-! ## Top-level orchestration -/

/-- The validated CLI configuration (`ConfigManager.validateConfig` output). -/
structure MigConfig where
  legacyEventName : String := ""
  targetEventId : Int := 0
  roomName : Option String := none
  migrateAllRooms : Bool := true
  verbose : Bool := false
  skipFiles : Bool := false
  dryRun : Bool := false
  deriving Repr, DecidableEq

/-- The room loop of the non-dry `migrateAllRooms` path: the rooms are
submitted through the ParallelProcessor; `processRoom` never throws, so every
task settles successfully with its `RoomLocalResult`.  The embedding runs
the admitted tasks in one valid schedule (sequentially, in submission
order). -/
def runRooms (jsDate : String → Option String) (now : Nat) (st : EventState)
    (bundles : List RoomBundle) (targetEventId : Int) (skipFiles : Bool) :
    EventState × Trace × List RoomLocalResult :=
  bundles.foldl
    (fun (acc : EventState × Trace × List RoomLocalResult) bundle =>
      let (st, tr, outs) := acc
      let (st', tr', out) := processRoom jsDate now st bundle targetEventId
        skipFiles
      (st', tr.add tr', outs ++ [out]))
    (st, {}, [])

/-- `MigrationService.aggregateRoomResults`, applied to what
`migrateAllRooms` actually passes it: the ParallelProcessor's wrapper
objects, whose fields are `{success, room, result, duration, index}`.

The loop body reads `roomResult.success` (always `true`: `processRoom`
resolves normally even for a failed room), so on the first wrapper it
increments `roomsProcessed`, then evaluates
`result.statistics.sessionsCreated += roomResult.sessionsCreated` — but the
wrapper has no `sessionsCreated`/`filesUploaded`/`usersProcessed`
properties, so the three counters become NaN — and then throws a TypeError
at `result.errors.push(...roomResult.errors)`, spreading the absent
`errors` property.  Consequently with at least one room the mutations of the
first iteration are applied and a TypeError escapes. -/
def aggregateRoomResults (stats : Stats) (roomResults : List RoomLocalResult) :
    Stats × Option String :=
  match roomResults with
  | [] => (stats, none)
  | _ :: _ =>
    ({ stats with roomsProcessed := stats.roomsProcessed + 1
                  sessionsCreated := .nan
                  filesUploaded := .nan
                  usersProcessed := .nan },
     some "TypeError: roomResult.errors is not iterable")

/-- `MigrationService.migrateAllRooms`.  Returns the state, the trace, the
updated result object, and the rethrown error (if any) for the caller's
catch.  In the dry-run branch the function returns right after counting the
fetched rooms: no transform, no validation and no client call happens. -/
def migrateAllRooms (jsDate : String → Option String) (now : Nat)
    (cfg : MigConfig) (fetchRooms : Except String (List RoomBundle))
    (st : EventState) (result : MigResult) :
    EventState × Trace × MigResult × Option String :=
  match fetchRooms with
  | .error e => (st, {}, addError result "All rooms migration" e, some e)
  | .ok rooms =>
    if rooms.isEmpty then
      (st, {}, result, none)
    else if cfg.dryRun then
      (st, {},
       { result with
         statistics := { result.statistics with roomsProcessed := rooms.length }
         dryRun := true },
       none)
    else
      let (st1, tr, locals) := runRooms jsDate now st rooms cfg.targetEventId
        cfg.skipFiles
      let (stats1, thrown) := aggregateRoomResults result.statistics locals
      match thrown with
      | some e =>
        (st1, tr, addError { result with statistics := stats1 }
          "All rooms migration" e, some e)
      | none => (st1, tr, { result with statistics := stats1 }, none)

/-- `MigrationService.migrateSingleRoom`.  Note the update branch: when
`roomResult.success` is true, only the statistics are added — the per-entity
errors collected inside the room are not copied into the final result. -/
def migrateSingleRoom (jsDate : String → Option String) (now : Nat)
    (cfg : MigConfig) (fetchRoom : Except String (Option RoomBundle))
    (st : EventState) (result : MigResult) :
    EventState × Trace × MigResult × Option String :=
  match fetchRoom with
  | .error e => (st, {}, addError result "Single room migration" e, some e)
  | .ok none =>
    let e := "Room \"" ++ cfg.roomName.getD "undefined" ++
      "\" not found in legacy event"
    (st, {}, addError result "Single room migration" e, some e)
  | .ok (some bundle) =>
    if cfg.dryRun then
      (st, {},
       { result with
         statistics := { result.statistics with roomsProcessed := 1 }
         dryRun := true },
       none)
    else
      let (st1, tr, roomResult) := processRoom jsDate now st bundle
        cfg.targetEventId cfg.skipFiles
      let stats := { result.statistics with roomsProcessed := 1 }
      if roomResult.success then
        (st1, tr,
         { result with statistics :=
            { stats with
              sessionsCreated := stats.sessionsCreated.addNat
                roomResult.sessionsCreated
              filesUploaded := stats.filesUploaded.addNat
                roomResult.filesUploaded
              usersProcessed := stats.usersProcessed.addNat
                roomResult.usersProcessed } },
         none)
      else
        (st1, tr,
         { result with statistics := stats
                       errors := result.errors ++ roomResult.errors },
         none)

/-- `MigrationService.executeMigration`: environment validation, dispatch on
`migrateAllRooms`, then finalization (`success` iff the error list is empty)
or the catch-all that records the thrown error. -/
def executeMigration (envCheck : Except String Unit)
    (jsDate : String → Option String) (now : Nat) (cfg : MigConfig)
    (fetchRooms : Except String (List RoomBundle))
    (fetchRoom : Except String (Option RoomBundle)) (st : EventState) :
    EventState × Trace × MigResult :=
  let result : MigResult := {}
  match envCheck with
  | .error e =>
    (st, {}, addError result "Migration execution" e)
  | .ok _ =>
    let (st1, tr, result1, thrown) :=
      if cfg.migrateAllRooms then
        Orc.migrateAllRooms jsDate now cfg fetchRooms st result
      else
        migrateSingleRoom jsDate now cfg fetchRoom st result
    match thrown with
    | some e => (st1, tr, addError result1 "Migration execution" e)
    | none => (st1, tr, { result1 with success := result1.errors.isEmpty })

/-! ## Concrete fixtures used by witnesses and counterexamples -/

/-- A date parser accepting every string unchanged (a concrete instantiation
of the `jsDate` parameter). -/
def jsDate0 : String → Option String := fun s => some s

/-- A target event that already contains the room `Main Hall` (id 10) and a
session with idempotency key `S1` (id 20) — the re-run scenario. -/
def stA : EventState :=
  { rooms := [{ id := "10", name := "Main Hall", displayName := "Main Hall",
                eventLocationId := 500 }]
    sessions := [{ id := "20", sourceSystemId := "S1", name := "Old",
                   eventId := 46, roomId := "10" }]
    nextId := 30 }

/-- A legacy session whose idempotency key `S1` collides with `stA`. -/
def sessA : LegacySession :=
  { sessionId := some "S1", title := some "Talk"
    startTime := some "2024-01-01T00:00:00Z"
    endTime := some "2024-01-01T01:00:00Z" }

/-- The transformed payload for the room `Main Hall`. -/
def roomPayloadA : RoomPayload :=
  { eventLocationId := 500, name := "Main Hall", displayName := "Main Hall",
    eventId := 46 }

/-- A legacy sub-session with an id but no order-like field. -/
def subNoOrder : LegacySubSession :=
  { subSessionId := some "B1", title := some "Part"
    startTime := some "2024-01-01T00:00:00Z"
    endTime := some "2024-01-01T00:30:00Z" }

/-- A legacy sub-session whose source `order` field is 5. -/
def subOrder5 : LegacySubSession :=
  { subSessionId := some "B5", title := some "Part5"
    startTime := some "2024-01-01T00:00:00Z"
    endTime := some "2024-01-01T00:30:00Z"
    order := some 5 }

/-- A legacy sub-session carrying none of the id candidate fields. -/
def subNoId : LegacySubSession :=
  { title := some "Part", startTime := some "2024-01-01T00:00:00Z"
    endTime := some "2024-01-01T00:30:00Z" }

/-- A legacy session carrying none of the id candidate fields. -/
def sessNoId : LegacySession :=
  { title := some "Talk", startTime := some "2024-01-01T00:00:00Z"
    endTime := some "2024-01-01T01:00:00Z" }

def roomA : LegacyRoom := { name := some "Main Hall" }

/-- A sub-session whose transformation fails (no parseable start/end). -/
def badSub : LegacySubSession :=
  { subSessionId := some "B9", title := some "Broken" }

/-- A valid session carrying one failing sub-session. -/
def sessB : LegacySession :=
  { sessionId := some "S9", title := some "Talk2"
    startTime := some "2024-01-01T00:00:00Z"
    endTime := some "2024-01-01T01:00:00Z"
    subSessions := [badSub] }

def bundleA : RoomBundle := { room := roomA, sessions := .ok [sessB] }

/-- Single-room, non-dry configuration for `Main Hall`. -/
def cfgSingle : MigConfig :=
  { targetEventId := 46, roomName := some "Main Hall",
    migrateAllRooms := false, skipFiles := true }

/-- Dry-run, all-rooms configuration. -/
def cfgDry : MigConfig := { targetEventId := 46, dryRun := true }

/-! ## Claims -/

/-- Claim C2, counterexample: the room creation attempt fails with a 409
`already exists` signal, the lookup finds no matching room, and yet the
upsert succeeds, returning the fabricated placeholder room (id
`existing-main-hall`, marked `_isExisting`) instead of the
`Failed(ConflictUnresolved)` outcome the claim demands. -/
theorem c2_counterexample :
    createRoom (.error "Current event API Error (409): Room already exists")
        (.ok []) roomPayloadA = .ok (mockRoom roomPayloadA) ∧
      (mockRoom roomPayloadA).isExisting = true ∧
      (mockRoom roomPayloadA).id = "existing-main-hall" :=
  ⟨rfl, rfl, by decide⟩

/-- Claim C2 (amended): whenever the creation attempt fails with a message
carrying the `409` conflict signal scoped to the duplicate (`already
exists`) and the subsequent lookup finds no room of the same name, the
upsert does not fail and does not re-attempt creation: it returns, as a
success, the fabricated mock room marked `_isExisting` whose id is
`existing-` followed by the slugged name. -/
theorem c2_conflict_unresolved_returns_mock (msg : String)
    (rooms : List TRoom) (p : RoomPayload)
    (h409 : containsSub msg "409" = true)
    (hdup : containsSub msg "already exists" = true)
    (hmiss : rooms.find? (fun room => room.name = p.name) = none) :
    createRoom (.error msg) (.ok rooms) p = .ok (mockRoom p) ∧
      (mockRoom p).isExisting = true ∧
      (mockRoom p).id = "existing-" ++ slug p.name := by
  refine ⟨?_, rfl, rfl⟩
  simp [createRoom, h409, hdup, hmiss]

/-- Witness for C2: the amended theorem applied at the concrete 409
scenario. -/
theorem c2_witness :
    createRoom (.error "Current event API Error (409): Room already exists")
        (.ok []) roomPayloadA = .ok (mockRoom roomPayloadA) ∧
      (mockRoom roomPayloadA).isExisting = true ∧
      (mockRoom roomPayloadA).id = "existing-" ++ slug roomPayloadA.name :=
  c2_conflict_unresolved_returns_mock
    "Current event API Error (409): Room already exists" [] roomPayloadA
    (by decide) (by decide) rfl

/-- Claim C3, counterexample: two sub-sessions without order-like source
fields both receive `order = 1`, although the claim requires the second
(1-based position 2) to receive 2; and a first-position sub-session whose
source record carries `order = 5` receives 5, not its position 1 — the
`order` field is taken from the source record, not from the list
position. -/
theorem c3_counterexample :
    ([subNoOrder, subNoOrder].map
        (fun s => (transformLegacySubSession jsDate0 0 s "X" 46).map
          (fun p => p.order))) = [.ok 1, .ok 1] ∧
      (transformLegacySubSession jsDate0 0 subOrder5 "X" 46).map
        (fun p => p.order) = .ok 5 ∧
      (1 : Int) ≠ 2 ∧ (5 : Int) ≠ 1 :=
  ⟨rfl, rfl, by decide, by decide⟩

/-- Claim C3 (amended): the `order` field of every successfully transformed
sub-session payload equals the source record's own `order` field when that
is present and non-zero, else its `subSessionOrder` field, else 1 — it is a
function of the record alone and never of the record's position in the
source list. -/
theorem c3_order_from_source (jsDate : String → Option String) (now : Nat)
    (sub : LegacySubSession) (sessionId : String) (targetEventId : Int)
    (p : SubSessionPayload)
    (h : transformLegacySubSession jsDate now sub sessionId targetEventId =
      .ok p) :
    p.order = (jsOrInt sub.order (jsOrInt sub.subSessionOrder (some 1))).getD 1 := by
  simp only [transformLegacySubSession] at h
  split at h
  · cases h
    rfl
  · cases h

/-- Witness for C3: the amended theorem applied to `subOrder5`. -/
theorem c3_witness :
    ∃ p, transformLegacySubSession jsDate0 0 subOrder5 "X" 46 = .ok p ∧
      p.order =
        (jsOrInt subOrder5.order (jsOrInt subOrder5.subSessionOrder (some 1))).getD 1 :=
  ⟨{ sessionId := "X", sourceSystemId := "B5", name := "Part5"
     description := none
     startsAt := some "2024-01-01T00:00:00Z"
     endsAt := some "2024-01-01T00:30:00Z", order := 5 },
   rfl,
   c3_order_from_source jsDate0 0 subOrder5 "X" 46 _ rfl⟩

/-- Claim C5 (code_bug evaluation): `eventApiRequest` consumes exactly one
attempt and surfaces a transient HTTP 503 as a terminal error — no retry
happens in the request path, although the repository's configuration loads
`maxRetries`/`retryDelay` and its documentation promises automatic retry;
the never-invoked `Utils.retry` helper would have recovered on the second
attempt. -/
theorem c5_no_retry_on_transient :
    eventApiRequestRun [.httpErr 503 (some "Service Unavailable")] =
      (1, .error "Current event API Error (503): Service Unavailable") ∧
      isTransient (.httpErr 503 (some "Service Unavailable")) = true ∧
      utilsRetry 3 [.httpErr 503 (some "Service Unavailable"),
        .ok (.direct "created")] = (2, .ok "created") :=
  ⟨rfl, by decide, rfl⟩

/-- Claim C7, counterexample: for a source record carrying none of the id
candidate fields, the transform consults `Date.now()`: two invocations at
times 0 and 1 produce payloads differing in `sourceSystemId`
(`legacy-0` vs `legacy-1`), for the session and the sub-session transform
alike. -/
theorem c7_counterexample :
    (transformLegacySubSession jsDate0 0 subNoId "X" 46).map
        (fun p => p.sourceSystemId) = .ok "legacy-0" ∧
      (transformLegacySubSession jsDate0 1 subNoId "X" 46).map
        (fun p => p.sourceSystemId) = .ok "legacy-1" ∧
      (transformLegacySession jsDate0 0 sessNoId "10" 46).map
        (fun p => p.sourceSystemId) = .ok "legacy-0" ∧
      (transformLegacySession jsDate0 1 sessNoId "10" 46).map
        (fun p => p.sourceSystemId) = .ok "legacy-1" ∧
      "legacy-0" ≠ "legacy-1" :=
  ⟨rfl, rfl, rfl, rfl, by decide⟩

/-- Claim C7 (amended): the transforms are pure and, whenever the source
record carries at least one non-empty id candidate field (so that the
`legacy-Date.now()` fallback is not taken), independent of the invocation
time: two invocations with different `now` values produce identical
payloads, including the `sourceSystemId`. -/
theorem c7_transform_deterministic_with_source_id
    (jsDate : String → Option String) (now₁ now₂ : Nat) (roomId : String)
    (targetEventId : Int) (s : LegacySession) (b : LegacySubSession)
    (hs : (sessionIdChain s).isSome) (hb : (subSessionIdChain b).isSome) :
    transformLegacySession jsDate now₁ s roomId targetEventId =
        transformLegacySession jsDate now₂ s roomId targetEventId ∧
      transformLegacySubSession jsDate now₁ b roomId targetEventId =
        transformLegacySubSession jsDate now₂ b roomId targetEventId := by
  obtain ⟨v, hv⟩ := Option.isSome_iff_exists.mp hs
  obtain ⟨w, hw⟩ := Option.isSome_iff_exists.mp hb
  constructor
  · unfold transformLegacySession
    rw [hv]
    rfl
  · unfold transformLegacySubSession
    rw [hw]
    rfl

/-- Witness for C7: the amended theorem applied to `sessA`/`subNoOrder`,
which carry source ids. -/
theorem c7_witness :
    transformLegacySession jsDate0 3 sessA "10" 46 =
        transformLegacySession jsDate0 7 sessA "10" 46 ∧
      transformLegacySubSession jsDate0 3 subNoOrder "10" 46 =
        transformLegacySubSession jsDate0 7 subNoOrder "10" 46 :=
  c7_transform_deterministic_with_source_id jsDate0 3 7 "10" 46 sessA
    subNoOrder rfl rfl

/-- Claim C4: a sub-session update payload built from a transformed
sub-session carries exactly the keys `name`, `description`, `startsAt`,
`endsAt`, `order`; and for every input object whatsoever the update payload
never carries the `eventId`, `sessionId` or `sourceSystemId` key. -/
theorem c4_update_payload_fields (jsDate : String → Option String) (now : Nat)
    (legacySubSession : LegacySubSession) (sessionId : String)
    (targetEventId : Int) (p : SubSessionPayload)
    (_h : transformLegacySubSession jsDate now legacySubSession sessionId
      targetEventId = .ok p) :
    (subSessionUpdatePayload (payloadToData p)).map Prod.fst =
        ["name", "description", "startsAt", "endsAt", "order"] ∧
      ∀ d : SubSessionData,
        "eventId" ∉ (subSessionUpdatePayload d).map Prod.fst ∧
        "sessionId" ∉ (subSessionUpdatePayload d).map Prod.fst ∧
        "sourceSystemId" ∉ (subSessionUpdatePayload d).map Prod.fst := by
  refine ⟨rfl, ?_⟩
  intro d
  obtain ⟨n, de, sa, ea, o, ev, si, ss⟩ := d
  refine ⟨?_, ?_, ?_⟩ <;>
    cases n <;> cases de <;> cases sa <;> cases ea <;> cases o <;>
      simp [subSessionUpdatePayload]

/-- Witness for C4: the theorem applied to the transform of `subNoOrder`. -/
theorem c4_witness :
    (subSessionUpdatePayload (payloadToData
        { sessionId := "X", sourceSystemId := "B1", name := "Part"
          description := none
          startsAt := some "2024-01-01T00:00:00Z"
          endsAt := some "2024-01-01T00:30:00Z", order := 1 })).map Prod.fst =
      ["name", "description", "startsAt", "endsAt", "order"] :=
  (c4_update_payload_fields jsDate0 0 subNoOrder "X" 46 _ rfl).1

/-- Claim C9: for every room list and processing function (a throwing
function being one that returns `Except.error`), the settled outcome list
contains exactly one wrapper per room, in order; a success resolves to a
success wrapper carrying the value and a throw is captured as a failure
wrapper carrying the error as a value — it is never propagated (the function
is total and returns the full list). -/
theorem c9_settle_all {α ε β : Type} (rooms : List α)
    (f : α → Except ε β) :
    (processRooms rooms f).length = rooms.length ∧
      ∀ (i : Nat) (hi : i < rooms.length)
        (ho : i < (processRooms rooms f).length),
        (∀ v, f (rooms.get ⟨i, hi⟩) = .ok v →
          (processRooms rooms f).get ⟨i, ho⟩ =
            { success := true, room := rooms.get ⟨i, hi⟩, result := some v,
              index := i }) ∧
        (∀ e, f (rooms.get ⟨i, hi⟩) = .error e →
          (processRooms rooms f).get ⟨i, ho⟩ =
            { success := false, room := rooms.get ⟨i, hi⟩, error := some e,
              index := i }) := by
  refine ⟨by simp [processRooms], ?_⟩
  intro i hi ho
  constructor
  · intro v hv
    unfold processRooms
    rw [List.get_mapIdx _ _ _ hi, hv]
  · intro e he
    unfold processRooms
    rw [List.get_mapIdx _ _ _ hi, he]

/-- Witness for C9: one succeeding and one throwing room. -/
theorem c9_witness :
    (processRooms [0, 1] (fun n : Nat =>
        if n = 0 then (.ok n : Except String Nat) else .error "boom")).length
      = 2 ∧
      (processRooms [0, 1] (fun n : Nat =>
          if n = 0 then (.ok n : Except String Nat) else .error "boom")).get
        ⟨1, by decide⟩ =
        { success := false, room := 1, error := some "boom", index := 1 } := by
  have h := c9_settle_all [0, 1]
    (fun n : Nat => if n = 0 then (.ok n : Except String Nat) else .error "boom")
  exact ⟨h.1, (h.2 1 (by decide) (by simp [processRooms])).2 "boom" rfl⟩

/-- Claim C1, counterexample: re-running one session against a target that
already holds its `sourceSystemId` resolves the conflict by updating the
existing session in place (the session list still has the single id `20`),
yet the run is reported with `created = 1` — the only Created/Updated-shaped
counter the result carries counts the conflict-updated session as created,
and no Updated outcome is reported anywhere. -/
theorem c1_counterexample :
    (processSessions jsDate0 0 stA [sessA] "10" 46).2.2 =
        { created := 1, errors := [] } ∧
      (processSessions jsDate0 0 stA [sessA] "10" 46).1.sessions.map
        (fun s => s.id) = ["20"] ∧
      stA.sessions.map (fun s => s.id) = ["20"] :=
  ⟨rfl, rfl, rfl⟩

/-- Claim C1 (amended): re-running creates no duplicates — a room upsert
against a target already holding a room of the same name leaves the target
state completely unchanged and returns that existing room (resolving to its
identifier), and a session upsert against a target already holding the
payload's `sourceSystemId` keeps the session count unchanged and succeeds
with the existing session's identifier.  (The outcome is, however, not
reported as Updated; see the counterexample.) -/
theorem c1_rerun_resolves_existing :
    (∀ (st : EventState) (p : RoomPayload) (r : TRoom),
      st.rooms.find? (fun room => room.name = p.name) = some r →
      createRoomSt st p = (st, .ok r)) ∧
    (∀ (st : EventState) (q : SessionPayload) (s : TSession),
      st.sessions.find? (fun t => t.sourceSystemId = q.sourceSystemId) =
        some s →
      (createOrUpdateSession st q).1.sessions.length = st.sessions.length ∧
        ∃ u, (createOrUpdateSession st q).2 = .ok u ∧ u.id = s.id) := by
  constructor
  · intro st p r h
    have hany : st.rooms.any (fun room => room.name = p.name) = true := by
      have hm := List.mem_of_find?_eq_some h
      have hp := List.find?_some h
      exact List.any_eq_true.mpr ⟨r, hm, hp⟩
    have h409 : containsSub
        "Current event API Error (409): Room already exists" "409" = true := by
      decide
    have hdup : containsSub
        "Current event API Error (409): Room already exists" "already exists"
          = true := by
      decide
    simp [createRoomSt, postRoom, hany, createRoom, h409, hdup, h]
  · intro st q s h
    have hany : st.sessions.any
        (fun t => t.sourceSystemId = q.sourceSystemId) = true := by
      have hm := List.mem_of_find?_eq_some h
      have hp := List.find?_some h
      exact List.any_eq_true.mpr ⟨s, hm, hp⟩
    have hpost : postSession st q =
        (st, .error "Current event API Error (409): The SourceSystemId is already in use") := by
      simp [postSession, hany]
    have h409 : containsSub
        "Current event API Error (409): The SourceSystemId is already in use"
          "409" = true := by
      decide
    have hdup : containsSub
        "Current event API Error (409): The SourceSystemId is already in use"
          "already in use" = true := by
      decide
    obtain ⟨s₂, hs₂⟩ : ∃ s₂,
        st.sessions.find? (fun t => t.id = s.id) = some s₂ := by
      have hm := List.mem_of_find?_eq_some h
      exact Option.isSome_iff_exists.mp
        (List.find?_isSome.mpr ⟨s, hm, by simp⟩)
    have hid : s₂.id = s.id := by simpa using List.find?_some hs₂
    have hrun : createOrUpdateSession st q =
        ({ st with sessions := st.sessions.map (fun t =>
            if t.id = s.id then
              { s₂ with sourceSystemId := q.sourceSystemId
                        name := q.name
                        eventId := q.eventId
                        roomId := q.roomId
                        description := q.description
                        startsAt := q.startsAt
                        endsAt := q.endsAt }
            else t) },
         .ok { s₂ with sourceSystemId := q.sourceSystemId
                       name := q.name
                       eventId := q.eventId
                       roomId := q.roomId
                       description := q.description
                       startsAt := q.startsAt
                       endsAt := q.endsAt }) := by
      simp [createOrUpdateSession, hpost, h409, hdup,
        getSessionBySourceSystemId, h, updateSession, putSession, hs₂]
    rw [hrun]
    exact ⟨by simp, _, rfl, hid⟩

/-- The session payload of the C1 re-run scenario. -/
def qA : SessionPayload :=
  { eventId := 46, roomId := "10", sourceSystemId := "S1", name := "Talk",
    description := none, startsAt := some "2024-01-01T00:00:00Z",
    endsAt := some "2024-01-01T01:00:00Z" }

/-- Witness for C1: the theorem applied at the concrete re-run state. -/
theorem c1_witness :
    createRoomSt stA roomPayloadA =
        (stA, .ok { id := "10", name := "Main Hall",
                    displayName := "Main Hall", eventLocationId := 500 }) ∧
      ((createOrUpdateSession stA qA).1.sessions.length =
          stA.sessions.length ∧
        ∃ u, (createOrUpdateSession stA qA).2 = .ok u ∧ u.id = "20") :=
  ⟨c1_rerun_resolves_existing.1 stA roomPayloadA _ rfl,
   c1_rerun_resolves_existing.2 stA qA
     { id := "20", sourceSystemId := "S1", name := "Old", eventId := 46,
       roomId := "10" } rfl⟩

/-- Claim C6, counterexample: a dry run over a fetched room whose bundle
contains a session with a sub-session reports `roomsProcessed = 1`, yet not a
single transform/validation was executed (`transformCalls = 0`) — the
dry-run branch returns before the transformation pipeline, so the claim's
"transformation and validation execute fully" is false. -/
theorem c6_counterexample :
    (executeMigration (.ok ()) jsDate0 0 cfgDry (.ok [bundleA]) (.ok none)
        {}).2.1.transformCalls = 0 ∧
      (executeMigration (.ok ()) jsDate0 0 cfgDry (.ok [bundleA]) (.ok none)
        {}).2.2.statistics.roomsProcessed = 1 ∧
      (executeMigration (.ok ()) jsDate0 0 cfgDry (.ok [bundleA]) (.ok none)
        {}).2.2.dryRun = true ∧
      bundleA.sessions = .ok [sessB] ∧ sessB.subSessions.length = 1 :=
  ⟨rfl, rfl, rfl, rfl, rfl⟩

/-- Claim C6 (amended): with the dry-run flag set, no mutating call reaches
the target system — the target state is returned unchanged and no client
create/update/upload entry point is invoked — but equally no transformation
or validation is executed: the run only counts the fetched rooms. -/
theorem c6_dry_run_no_mutation (envCheck : Except String Unit)
    (jsDate : String → Option String) (now : Nat) (cfg : MigConfig)
    (fetchRooms : Except String (List RoomBundle))
    (fetchRoom : Except String (Option RoomBundle)) (st : EventState)
    (h : cfg.dryRun = true) :
    (executeMigration envCheck jsDate now cfg fetchRooms fetchRoom st).2.1 =
        ({} : Trace) ∧
      (executeMigration envCheck jsDate now cfg fetchRooms fetchRoom st).1 =
        st := by
  unfold executeMigration migrateAllRooms migrateSingleRoom
  cases envCheck with
  | error e => exact ⟨rfl, rfl⟩
  | ok _ =>
    cases hAll : cfg.migrateAllRooms with
    | true =>
      cases fetchRooms with
      | error e => simp [hAll]
      | ok rooms =>
        cases hEmp : rooms.isEmpty <;> simp [hAll, hEmp, h]
    | false =>
      cases fetchRoom with
      | error e => simp [hAll]
      | ok ob =>
        cases ob with
        | none => simp [hAll]
        | some bundle => simp [hAll, h]

/-- Witness for C6: the amended theorem at the concrete dry-run input. -/
theorem c6_witness :
    (executeMigration (.ok ()) jsDate0 0 cfgDry (.ok [bundleA]) (.ok none)
        stA).2.1 = ({} : Trace) ∧
      (executeMigration (.ok ()) jsDate0 0 cfgDry (.ok [bundleA]) (.ok none)
        stA).1 = stA :=
  c6_dry_run_no_mutation (.ok ()) jsDate0 0 cfgDry (.ok [bundleA]) (.ok none)
    stA rfl

/-! ### Helper lemmas for the error-propagation claim -/

/-- A sub-session loop iteration never changes the target state: the
creation call it makes (`createSubSession`, i.e. `createOrUpdateSubSession`
with no second argument) fails the eventId guard before any HTTP request,
because the transformed payload carries no `eventId` key. -/
theorem processSubSessionsStep_state (jsDate : String → Option String)
    (now : Nat) (sessionId : String) (targetEventId : Int)
    (acc : EventState × Trace) (sub : LegacySubSession) :
    (processSubSessionsStep jsDate now sessionId targetEventId acc sub).1 =
      acc.1 := by
  rcases acc with ⟨st, tr⟩
  unfold processSubSessionsStep
  cases h : transformLegacySubSession jsDate now sub sessionId targetEventId with
  | ok p =>
    simp [h, createSubSession, createOrUpdateSubSession, payloadToData, jsOrInt]
  | error e => simp [h]

/-- The whole sub-session loop leaves the target state unchanged. -/
theorem processSubSessions_state (jsDate : String → Option String) (now : Nat)
    (st : EventState) (subs : List LegacySubSession) (sessionId : String)
    (targetEventId : Int) :
    (processSubSessions jsDate now st subs sessionId targetEventId).1 = st := by
  have main : ∀ (subs : List LegacySubSession) (acc : EventState × Trace),
      (subs.foldl (processSubSessionsStep jsDate now sessionId targetEventId)
        acc).1 = acc.1 := by
    intro subs
    induction subs with
    | nil => intro acc; rfl
    | cons a l ih =>
      intro acc
      rw [List.foldl_cons, ih, processSubSessionsStep_state]
  exact main subs (st, {})

/-- A session record with its sub-session list removed. -/
def eraseSubs (s : LegacySession) : LegacySession :=
  { s with subSessions := [] }

/-- One session-loop iteration produces the same state and the same
`SessResult` whether or not the session carries sub-sessions: the
sub-session pass touches neither. -/
theorem processSessionsStep_erase (jsDate : String → Option String)
    (now : Nat) (roomId : String) (targetEventId : Int) (s : LegacySession)
    (acc₁ acc₂ : EventState × Trace × SessResult)
    (h1 : acc₁.1 = acc₂.1) (h3 : acc₁.2.2 = acc₂.2.2) :
    (processSessionsStep jsDate now roomId targetEventId acc₁
        (eraseSubs s)).1 =
      (processSessionsStep jsDate now roomId targetEventId acc₂ s).1 ∧
    (processSessionsStep jsDate now roomId targetEventId acc₁
        (eraseSubs s)).2.2 =
      (processSessionsStep jsDate now roomId targetEventId acc₂ s).2.2 := by
  rcases acc₁ with ⟨st₁, tr₁, res₁⟩
  rcases acc₂ with ⟨st₂, tr₂, res₂⟩
  simp only at h1 h3
  subst h1
  subst h3
  unfold processSessionsStep
  have htr : transformLegacySession jsDate now (eraseSubs s) roomId
      targetEventId = transformLegacySession jsDate now s roomId
      targetEventId := rfl
  have hname : sessionTitle (eraseSubs s) = sessionTitle s := rfl
  rw [htr, hname]
  cases ht : transformLegacySession jsDate now s roomId targetEventId with
  | error e => simp [ht]
  | ok q =>
    simp only [ht]
    rcases hc : createSession st₁ q with ⟨stc, resc⟩
    cases resc with
    | error e => simp [hc]
    | ok c =>
      have hsubsE : (eraseSubs s).subSessions = [] := rfl
      by_cases hn : s.subSessions = []
      · simp [hc, hsubsE, hn]
      · simp [hc, hsubsE, hn, processSubSessions_state]

/-- Claim C8, counterexample: an end-to-end single-room run whose only
session carries one sub-session that fails transformation completes with an
empty error list and `success = true`; the session was synchronized (one
target session exists) but the sub-session failure left no trace in the
report (and no sub-session was created).  The claim's "no per-entity failure
is silently dropped" is false. -/
theorem c8_counterexample :
    (executeMigration (.ok ()) jsDate0 0 cfgSingle (.ok [])
        (.ok (some bundleA)) {}).2.2.errors = [] ∧
      (executeMigration (.ok ()) jsDate0 0 cfgSingle (.ok [])
        (.ok (some bundleA)) {}).2.2.success = true ∧
      (executeMigration (.ok ()) jsDate0 0 cfgSingle (.ok [])
        (.ok (some bundleA)) {}).1.sessions.length = 1 ∧
      (executeMigration (.ok ()) jsDate0 0 cfgSingle (.ok [])
        (.ok (some bundleA)) {}).1.subSessions = [] ∧
      sessB.subSessions.length = 1 :=
  ⟨rfl, rfl, rfl, rfl, rfl⟩

/-- Claim C8 (amended): sub-session outcomes are invisible to the report —
the session loop returns exactly the same state and result whether every
sub-session list is emptied or not — and in the single-room path the
per-entity errors collected inside a room are dropped from the final result
whenever room-level processing itself succeeded. -/
theorem c8_subsession_failures_unreported :
    (∀ (jsDate : String → Option String) (now : Nat) (st : EventState)
      (sessions : List LegacySession) (roomId : String) (targetEventId : Int),
      (processSessions jsDate now st (sessions.map eraseSubs) roomId
          targetEventId).2.2 =
        (processSessions jsDate now st sessions roomId targetEventId).2.2) ∧
    (∀ (jsDate : String → Option String) (now : Nat) (cfg : MigConfig)
      (bundle : RoomBundle) (st : EventState) (result : MigResult),
      cfg.dryRun = false →
      (processRoom jsDate now st bundle cfg.targetEventId
        cfg.skipFiles).2.2.success = true →
      (migrateSingleRoom jsDate now cfg (.ok (some bundle)) st
        result).2.2.1.errors = result.errors) := by
  constructor
  · intro jsDate now st sessions roomId targetEventId
    have main : ∀ (sessions : List LegacySession)
        (acc₁ acc₂ : EventState × Trace × SessResult),
        acc₁.1 = acc₂.1 → acc₁.2.2 = acc₂.2.2 →
        ((sessions.map eraseSubs).foldl
            (processSessionsStep jsDate now roomId targetEventId) acc₁).1 =
          (sessions.foldl
            (processSessionsStep jsDate now roomId targetEventId) acc₂).1 ∧
        ((sessions.map eraseSubs).foldl
            (processSessionsStep jsDate now roomId targetEventId) acc₁).2.2 =
          (sessions.foldl
            (processSessionsStep jsDate now roomId targetEventId) acc₂).2.2 := by
      intro sessions
      induction sessions with
      | nil => intro acc₁ acc₂ h1 h3; exact ⟨h1, h3⟩
      | cons a l ih =>
        intro acc₁ acc₂ h1 h3
        rw [List.map_cons, List.foldl_cons, List.foldl_cons]
        have hstep := processSessionsStep_erase jsDate now roomId
          targetEventId a acc₁ acc₂ h1 h3
        exact ih _ _ hstep.1 hstep.2
    exact (main sessions (st, {}, {}) (st, {}, {}) rfl rfl).2
  · intro jsDate now cfg bundle st result hdry hsucc
    unfold migrateSingleRoom
    rcases hPR : processRoom jsDate now st bundle cfg.targetEventId
      cfg.skipFiles with ⟨st1, tr, rr⟩
    rw [hPR] at hsucc
    simp only at hsucc
    simp [hdry, hPR, hsucc]

/-- Witness for C8: the amended theorem at the concrete single-room run. -/
theorem c8_witness :
    (processSessions jsDate0 0 stA ([sessB].map eraseSubs) "10" 46).2.2 =
        (processSessions jsDate0 0 stA [sessB] "10" 46).2.2 ∧
      (migrateSingleRoom jsDate0 0 cfgSingle (.ok (some bundleA)) {}
        {}).2.2.1.errors = ({} : MigResult).errors :=
  ⟨c8_subsession_failures_unreported.1 jsDate0 0 stA [sessB] "10" 46,
   c8_subsession_failures_unreported.2 jsDate0 0 cfgSingle bundleA {} {}
     rfl rfl⟩

/-! ### Helper lemmas for the untouched-counters claim -/

/-- No branch of `migrateAllRooms` writes `subSessionsCreated` or
`moderatorsCreated`. -/
theorem migrateAllRooms_keeps_counters (jsDate : String → Option String)
    (now : Nat) (cfg : MigConfig)
    (fetchRooms : Except String (List RoomBundle)) (st : EventState)
    (result : MigResult) :
    (migrateAllRooms jsDate now cfg fetchRooms st
        result).2.2.1.statistics.subSessionsCreated =
      result.statistics.subSessionsCreated ∧
    (migrateAllRooms jsDate now cfg fetchRooms st
        result).2.2.1.statistics.moderatorsCreated =
      result.statistics.moderatorsCreated := by
  unfold migrateAllRooms
  cases fetchRooms with
  | error e => exact ⟨rfl, rfl⟩
  | ok rooms =>
    cases hEmp : rooms.isEmpty with
    | true => simp [hEmp]
    | false =>
      cases hDry : cfg.dryRun with
      | true => simp [hEmp, hDry]
      | false =>
        rcases hRR : runRooms jsDate now st rooms cfg.targetEventId
          cfg.skipFiles with ⟨st1, tr, locals⟩
        cases locals with
        | nil => simp [hEmp, hDry, hRR, aggregateRoomResults]
        | cons a l =>
          simp [hEmp, hDry, hRR, aggregateRoomResults, addError]

/-- No branch of `migrateSingleRoom` writes `subSessionsCreated` or
`moderatorsCreated`. -/
theorem migrateSingleRoom_keeps_counters (jsDate : String → Option String)
    (now : Nat) (cfg : MigConfig)
    (fetchRoom : Except String (Option RoomBundle)) (st : EventState)
    (result : MigResult) :
    (migrateSingleRoom jsDate now cfg fetchRoom st
        result).2.2.1.statistics.subSessionsCreated =
      result.statistics.subSessionsCreated ∧
    (migrateSingleRoom jsDate now cfg fetchRoom st
        result).2.2.1.statistics.moderatorsCreated =
      result.statistics.moderatorsCreated := by
  unfold migrateSingleRoom
  cases fetchRoom with
  | error e => exact ⟨rfl, rfl⟩
  | ok ob =>
    cases ob with
    | none => exact ⟨rfl, rfl⟩
    | some bundle =>
      cases hDry : cfg.dryRun with
      | true => simp [hDry]
      | false =>
        rcases hPR : processRoom jsDate now st bundle cfg.targetEventId
          cfg.skipFiles with ⟨st1, tr, rr⟩
        cases hS : rr.success with
        | true => simp [hDry, hPR, hS]
        | false => simp [hDry, hPR, hS]

/-- Claim C10: in every `MigrationResult` produced by executing a migration,
the `subSessionsCreated` and `moderatorsCreated` statistics counters are
still 0 at the end of the run — no orchestration code path increments
them. -/
theorem c10_counters_never_incremented (envCheck : Except String Unit)
    (jsDate : String → Option String) (now : Nat) (cfg : MigConfig)
    (fetchRooms : Except String (List RoomBundle))
    (fetchRoom : Except String (Option RoomBundle)) (st : EventState) :
    (executeMigration envCheck jsDate now cfg fetchRooms fetchRoom
        st).2.2.statistics.subSessionsCreated = 0 ∧
      (executeMigration envCheck jsDate now cfg fetchRooms fetchRoom
        st).2.2.statistics.moderatorsCreated = 0 := by
  unfold executeMigration
  cases envCheck with
  | error e => exact ⟨rfl, rfl⟩
  | ok _ =>
    cases hAll : cfg.migrateAllRooms with
    | true =>
      rcases hM : migrateAllRooms jsDate now cfg fetchRooms st {} with
        ⟨st1, tr, result1, thrown⟩
      have hkeep := migrateAllRooms_keeps_counters jsDate now cfg fetchRooms
        st {}
      rw [hM] at hkeep
      simp only at hkeep
      cases thrown with
      | some e => simp [hAll, hM, addError, hkeep.1, hkeep.2]
      | none => simp [hAll, hM, hkeep.1, hkeep.2]
    | false =>
      rcases hM : migrateSingleRoom jsDate now cfg fetchRoom st {} with
        ⟨st1, tr, result1, thrown⟩
      have hkeep := migrateSingleRoom_keeps_counters jsDate now cfg fetchRoom
        st {}
      rw [hM] at hkeep
      simp only at hkeep
      cases thrown with
      | some e => simp [hAll, hM, addError, hkeep.1, hkeep.2]
      | none => simp [hAll, hM, hkeep.1, hkeep.2]

end Orc
